import Mathlib

/-!
Verification development for the planetarium booking backend
(`planetarium/models.py`).

The Python models are shallowly embedded as Lean structures and pure
functions.  Python `int` values become `Int`; Django-persisted
non-negative column values (`PositiveIntegerField`) become `Nat` on the
persisted record, while their validation on raw candidate values is
modelled over `Int`.  A raised `ValidationError({field: message})`
becomes `Except.error ⟨field, message⟩`; the ticket table of the
relational store becomes a `List Ticket`.
-/

/-- A persisted `PlanetariumDome` row: `name` (CharField), `rows` and
`seats_in_row` (PositiveIntegerFields, hence non-negative, carried as `Nat`). -/
structure PlanetariumDome where
  name : String
  rows : Nat
  seats_in_row : Nat
  deriving DecidableEq

/-- `PlanetariumDome.capacity`: the `@property` returning
`self.rows * self.seats_in_row`, computed on read from the current fields. -/
def PlanetariumDome.capacity (d : PlanetariumDome) : Nat :=
  d.rows * d.seats_in_row

/-- `getattr(planetarium_dome, dome_attr_name)` as used inside
`Ticket.validate_ticket`; the source only ever calls it with
`"rows"` or `"seats_in_row"` (the `0` default branch is unreachable there). -/
def PlanetariumDome.getattr (d : PlanetariumDome) (attr : String) : Nat :=
  if attr = "rows" then d.rows
  else if attr = "seats_in_row" then d.seats_in_row
  else 0

/-- The payload of a raised `ValidationError({field: message})`: the single
offending field name and its message. -/
structure ValidationErrorData where
  field : String
  message : String
  deriving DecidableEq

/-- A `Ticket` row: `row` and `seat` (IntegerFields, so any `Int`), plus
foreign keys `show_session` and `reservation` (modelled as ids). -/
structure Ticket where
  row : Int
  seat : Int
  show_session : Nat
  reservation : Nat
  deriving DecidableEq

/-- The `for` loop of `Ticket.validate_ticket` over
`[(row, "row", "rows"), (seat, "seat", "seats_in_row")]`: for each triple it
reads `count_attrs = getattr(planetarium_dome, dome_attr_name)` and raises on
the first value violating `1 <= ticket_attr_value <= count_attrs`. -/
def validateAttrsLoop (dome : PlanetariumDome) :
    List (Int × String × String) → Except ValidationErrorData Unit
  | [] => Except.ok ()
  | (v, ticketAttrName, domeAttrName) :: rest =>
    let countAttrs := dome.getattr domeAttrName
    if ¬ (1 ≤ v ∧ v ≤ (countAttrs : Int)) then
      Except.error ⟨ticketAttrName,
        ticketAttrName ++ " number must be in range: (1, " ++ domeAttrName ++
          ") → (1, " ++ toString countAttrs ++ ")"⟩
    else validateAttrsLoop dome rest

/-- `Ticket.validate_ticket(row, seat, planetarium_dome, error_to_raise)`:
range-checks `row` against `dome.rows` then `seat` against
`dome.seats_in_row`, raising a per-field `ValidationError` on the first
violation. -/
def Ticket.validate_ticket (row seat : Int) (dome : PlanetariumDome) :
    Except ValidationErrorData Unit :=
  validateAttrsLoop dome [(row, "row", "rows"), (seat, "seat", "seats_in_row")]

/-- `Ticket.clean`: calls `Ticket.validate_ticket` on the ticket's own
`row`/`seat` against `self.show_session.planetarium_dome` (passed here as
`dome`). -/
def Ticket.clean (dome : PlanetariumDome) (t : Ticket) :
    Except ValidationErrorData Unit :=
  Ticket.validate_ticket t.row t.seat dome

/-- Two tickets agree on the `unique_together = ("show_session", "row", "seat")`
triple. -/
def sameSeatTriple (a b : Ticket) : Bool :=
  a.show_session == b.show_session && a.row == b.row && a.seat == b.seat

/-- The `ValidationError` Django raises for the
`unique_together = ("show_session", "row", "seat")` constraint, keyed under
the non-field key `__all__`. -/
def uniqueTogetherError : ValidationErrorData :=
  ⟨"__all__", "Ticket with this Show session, Row and Seat already exists."⟩

/-- Django `Model.validate_unique` for `Ticket`: errors when some already
persisted ticket (`existing`) carries the same
`(show_session, row, seat)` triple as the candidate `t`. -/
def Ticket.validate_unique (existing : List Ticket) (t : Ticket) :
    Except ValidationErrorData Unit :=
  if existing.any (fun u => sameSeatTriple u t) then
    Except.error uniqueTogetherError
  else Except.ok ()

/-- Django `Model.full_clean` for `Ticket`: runs `clean()` (the range
checks) and then `validate_unique()`, merging the errors of both stages, in
that order, into one error collection; it raises exactly when that
collection is non-empty.  (`clean_fields()` is a no-op here: `row` and
`seat` are plain IntegerFields with no field-level validators in the model.) -/
def Ticket.full_clean (dome : PlanetariumDome) (existing : List Ticket)
    (t : Ticket) : List ValidationErrorData :=
  (match Ticket.clean dome t with
    | Except.error e => [e]
    | Except.ok _ => []) ++
  (match Ticket.validate_unique existing t with
    | Except.error e => [e]
    | Except.ok _ => [])

/-- `Ticket.save`: calls `self.full_clean()` first; if it raises, the
exception propagates and `super().save()` is never reached (no insert);
otherwise the row is inserted into the ticket table. -/
def Ticket.save (dome : PlanetariumDome) (existing : List Ticket)
    (t : Ticket) : Except (List ValidationErrorData) (List Ticket) :=
  match Ticket.full_clean dome existing t with
  | [] => Except.ok (existing ++ [t])
  | e :: rest => Except.error (e :: rest)

/-- Pairwise uniqueness of the `(show_session, row, seat)` triple over a
ticket table, i.e. the `unique_together` invariant. -/
def uniqueTriples : List Ticket → Bool
  | [] => true
  | t :: rest => rest.all (fun u => !sameSeatTriple t u) && uniqueTriples rest

/-- A persisted `ShowSession` row: `astronomy_show` and `planetarium_dome`
foreign keys (modelled as ids) plus its own id. -/
structure ShowSessionRec where
  id : Nat
  astronomy_show : Nat
  planetarium_dome : Nat
  deriving DecidableEq

/-- The relational store as the claims see it: the `AstronomyShow`,
`ShowSession` and `Reservation` tables (by id) and the `Ticket` table. -/
structure DB where
  shows : List Nat
  sessions : List ShowSessionRec
  reservations : List Nat
  tickets : List Ticket

/-- `sessId` is a session of show `showId` in `db` (used to trace the
transitive cascade `AstronomyShow → ShowSession → Ticket`). -/
def sessionOfShow (db : DB) (showId sessId : Nat) : Bool :=
  db.sessions.any (fun s => s.id == sessId && s.astronomy_show == showId)

/-- Deleting a `Reservation`: `Ticket.reservation` has
`on_delete=models.CASCADE`, so every ticket referencing it is deleted too. -/
def deleteReservation (db : DB) (rid : Nat) : DB :=
  { db with
    reservations := db.reservations.filter (fun r => r != rid),
    tickets := db.tickets.filter (fun t => t.reservation != rid) }

/-- Deleting an `AstronomyShow`: `ShowSession.astronomy_show` cascades, so
its sessions are deleted, and `Ticket.show_session` cascades in turn, so the
tickets of those sessions are deleted transitively. -/
def deleteAstronomyShow (db : DB) (showId : Nat) : DB :=
  { db with
    shows := db.shows.filter (fun a => a != showId),
    sessions := db.sessions.filter (fun s => s.astronomy_show != showId),
    tickets := db.tickets.filter (fun t => !sessionOfShow db showId t.show_session) }

/-- Raw field values of a candidate `PlanetariumDome` before validation:
Python ints destined for the two `PositiveIntegerField` columns. -/
structure DomeCandidate where
  rows : Int
  seats_in_row : Int
  deriving DecidableEq

/-- Modelled from Django's `PositiveIntegerField` validation semantics: the
field accepts exactly the integers `v` with `0 ≤ v ≤ 2147483647` — despite
its name, zero is accepted. -/
def positiveIntegerFieldOk (v : Int) : Bool :=
  decide (0 ≤ v) && decide (v ≤ 2147483647)

/-- Validation of a candidate dome's two integer columns (`rows` and
`seats_in_row`, both `PositiveIntegerField`). -/
def domeFieldsValid (d : DomeCandidate) : Bool :=
  positiveIntegerFieldOk d.rows && positiveIntegerFieldOk d.seats_in_row

/-- The seat grid of a dome as a finite set of integer pairs:
rows `1 … rows` paired with seats `1 … seats_in_row`. -/
def acceptedSeatPairs (d : PlanetariumDome) : Finset (Int × Int) :=
  Finset.Icc (1 : Int) d.rows ×ˢ Finset.Icc (1 : Int) d.seats_in_row

/-- `\w` of Python `re` restricted to the ASCII range (the input to the
keep-filter in `slugify` is ASCII-only after the `encode("ascii", "ignore")`
step): letters, digits and the underscore. -/
def isPythonWordChar (c : Char) : Bool :=
  c.isAlpha || c.isDigit || c == '_'

/-- `\s` of Python `re` restricted to the ASCII range: space, `\t`, `\n`,
`\r`, `\v`, `\f` and the separator control characters `\x1c`–`\x1f`. -/
def isPythonSpace (c : Char) : Bool :=
  c == ' ' || c == '\t' || c == '\n' || c == '\r' || c == '\x0b' ||
    c == '\x0c' || c == '\x1c' || c == '\x1d' || c == '\x1e' || c == '\x1f'

/-- The character class kept by `re.sub(r"[^\w\s-]", "", ...)` in
`django.utils.text.slugify`. -/
def slugKeep (c : Char) : Bool :=
  isPythonWordChar c || isPythonSpace c || c == '-'

/-- `re.sub(r"[-\s]+", "-", ...)`: every maximal run of dashes and
whitespace becomes a single dash (`inRun` records being inside such a run). -/
def collapseDashSpace : List Char → Bool → List Char
  | [], _ => []
  | c :: rest, inRun =>
    if c == '-' || isPythonSpace c then
      if inRun then collapseDashSpace rest true
      else '-' :: collapseDashSpace rest true
    else c :: collapseDashSpace rest false

/-- The character class of Python `.strip("-_")`. -/
def isStripDashUnderscore (c : Char) : Bool :=
  c == '-' || c == '_'

/-- `django.utils.text.slugify(value)` (default `allow_unicode=False`) on a
character list: drop non-ASCII code points (the
`normalize("NFKD")...encode("ascii", "ignore")` step, modelled as the
ASCII-ignore projection, which is exact on ASCII input), lowercase, keep only
`[\w\s-]`, collapse `[-\s]+` runs to a single `-`, then strip `-`/`_` from
both ends. -/
def slugifyChars (l : List Char) : List Char :=
  (((collapseDashSpace
        (((l.filter (fun c => c.toNat < 128)).map Char.toLower).filter slugKeep)
        false).dropWhile isStripDashUnderscore).reverse.dropWhile
      isStripDashUnderscore).reverse

/-- `django.utils.text.slugify` on a string. -/
def slugify (s : String) : String :=
  String.mk (slugifyChars s.data)

/-- Index of the last occurrence of `c` in `l` (Python `str.rfind`). -/
def rfindIdx : List Char → Char → Option Nat
  | [], _ => none
  | a :: rest, c =>
    match rfindIdx rest c with
    | some i => some (i + 1)
    | none => if a == c then some 0 else none

/-- `os.path.splitext(p)` (POSIX): split at the last `.` that lies after the
last `/`, unless every character between them is a dot (leading dots of the
base name do not start an extension). -/
def os_path_splitext (p : String) : String × String :=
  let l := p.data
  let sepIdx : Int := match rfindIdx l '/' with | some i => (i : Int) | none => -1
  let dotIdx : Int := match rfindIdx l '.' with | some i => (i : Int) | none => -1
  if sepIdx < dotIdx then
    if (List.range dotIdx.toNat).any
        (fun j => decide ((sepIdx + 1).toNat ≤ j) && l.getD j '.' != '.') then
      (String.mk (l.take dotIdx.toNat), String.mk (l.drop dotIdx.toNat))
    else (p, "")
  else (p, "")

/-- `os.path.join(a, b)` (POSIX, two components): `b` if it is absolute,
otherwise `a ++ b` when `a` is empty or already ends with the separator,
otherwise `a ++ "/" ++ b`. -/
def os_path_join (a b : String) : String :=
  if b.data.head? = some '/' then b
  else if a.data = [] ∨ a.data.getLast? = some '/' then a ++ b
  else a ++ "/" ++ b

/-- `show_image_file_path(instance, filename)`: builds
`f"{slugify(instance.title)}-{uuid.uuid4()}{extension}"` and joins it under
`"uploads/movies/"`.  The generated `uuid.uuid4()` value is nondeterministic
and is modelled as the explicit parameter `uid`. -/
def show_image_file_path (title uid filename : String) : String :=
  os_path_join "uploads/movies/"
    (slugify title ++ "-" ++ uid ++ (os_path_splitext filename).2)

/-- Helper: unfold `Ticket.validate_ticket` into its two sequential checks
with their exact raised messages. -/
theorem validate_ticket_eq (row seat : Int) (d : PlanetariumDome) :
    Ticket.validate_ticket row seat d =
      if ¬ (1 ≤ row ∧ row ≤ (d.rows : Int)) then
        Except.error ⟨"row",
          "row number must be in range: (1, rows) → (1, " ++
            toString d.rows ++ ")"⟩
      else if ¬ (1 ≤ seat ∧ seat ≤ (d.seats_in_row : Int)) then
        Except.error ⟨"seat",
          "seat number must be in range: (1, seats_in_row) → (1, " ++
            toString d.seats_in_row ++ ")"⟩
      else Except.ok () := rfl

/-- Helper: the success characterisation of `Ticket.validate_ticket`. -/
theorem validate_ticket_ok_char (row seat : Int) (d : PlanetariumDome) :
    Ticket.validate_ticket row seat d = Except.ok () ↔
      (1 ≤ row ∧ row ≤ (d.rows : Int) ∧
        1 ≤ seat ∧ seat ≤ (d.seats_in_row : Int)) := by
  rw [validate_ticket_eq]
  split_ifs with h1 h2
  · exact iff_of_true rfl (by tauto)
  · exact iff_of_false (by simp) (by tauto)
  · exact iff_of_false (by simp) (by tauto)

/-- C1: `Ticket.validate_ticket` raises no error exactly when
`1 ≤ row ≤ dome.rows` and `1 ≤ seat ≤ dome.seats_in_row`; in particular
`row = 0`, `row = rows + 1`, `seat = 0` and `seat = seats_in_row + 1` all
make it raise. -/
theorem validate_ticket_ok_iff (row seat : Int) (d : PlanetariumDome) :
    Ticket.validate_ticket row seat d = Except.ok () ↔
      (1 ≤ row ∧ row ≤ (d.rows : Int) ∧
        1 ≤ seat ∧ seat ≤ (d.seats_in_row : Int)) :=
  validate_ticket_ok_char row seat d

/-- C4: the `capacity` property is exactly `rows * seats_in_row`, computed on
read: updating either field changes the value read to the new product. -/
theorem capacity_is_product (d : PlanetariumDome) (r s : Nat) :
    d.capacity = d.rows * d.seats_in_row ∧
    ({ d with rows := r } : PlanetariumDome).capacity = r * d.seats_in_row ∧
    ({ d with seats_in_row := s } : PlanetariumDome).capacity = d.rows * s :=
  ⟨rfl, rfl, rfl⟩

/-- C3: failing range checks raise a per-field error with exactly the message
`"<field> number must be in range: (1, <dome attribute name>) → (1, <bound>)"`,
and the checks run in order: the row bound, then the seat bound, then (via
`full_clean`) the `(show_session, row, seat)` uniqueness check. -/
theorem validate_error_fields (d : PlanetariumDome) (existing : List Ticket)
    (t : Ticket) :
    (¬ (1 ≤ t.row ∧ t.row ≤ (d.rows : Int)) →
      Ticket.validate_ticket t.row t.seat d =
        Except.error ⟨"row",
          "row number must be in range: (1, rows) → (1, " ++
            toString d.rows ++ ")"⟩) ∧
    ((1 ≤ t.row ∧ t.row ≤ (d.rows : Int)) →
      ¬ (1 ≤ t.seat ∧ t.seat ≤ (d.seats_in_row : Int)) →
      Ticket.validate_ticket t.row t.seat d =
        Except.error ⟨"seat",
          "seat number must be in range: (1, seats_in_row) → (1, " ++
            toString d.seats_in_row ++ ")"⟩) ∧
    ((1 ≤ t.row ∧ t.row ≤ (d.rows : Int)) →
      (1 ≤ t.seat ∧ t.seat ≤ (d.seats_in_row : Int)) →
      existing.any (fun u => sameSeatTriple u t) = true →
      Ticket.full_clean d existing t = [uniqueTogetherError]) := by
  refine ⟨fun hr => ?_, fun hr hs => ?_, fun hr hs hdup => ?_⟩
  · rw [validate_ticket_eq]
    rw [if_pos hr]
  · rw [validate_ticket_eq]
    rw [if_neg (not_not_intro hr), if_pos hs]
  · unfold Ticket.full_clean Ticket.clean Ticket.validate_unique
    rw [validate_ticket_eq]
    rw [if_neg (not_not_intro hr), if_neg (not_not_intro hs), if_pos hdup]
    rfl

/-- C3 witness: concrete dome with 2 rows and 3 seats per row; row 5 yields
the row message with bound 2, seat 9 yields the seat message with bound 3,
and a duplicate in-range pair yields exactly the uniqueness error. -/
theorem validate_error_fields_witness :
    Ticket.validate_ticket 5 1 ⟨"d", 2, 3⟩ =
      Except.error ⟨"row", "row number must be in range: (1, rows) → (1, 2)"⟩ ∧
    Ticket.validate_ticket 1 9 ⟨"d", 2, 3⟩ =
      Except.error ⟨"seat",
        "seat number must be in range: (1, seats_in_row) → (1, 3)"⟩ ∧
    Ticket.full_clean ⟨"d", 2, 3⟩ [⟨1, 2, 7, 1⟩] ⟨1, 2, 7, 4⟩ =
      [uniqueTogetherError] :=
  ⟨(validate_error_fields ⟨"d", 2, 3⟩ [] ⟨5, 1, 0, 0⟩).1 (by decide),
   (validate_error_fields ⟨"d", 2, 3⟩ [] ⟨1, 9, 0, 0⟩).2.1 (by decide) (by decide),
   (validate_error_fields ⟨"d", 2, 3⟩ [⟨1, 2, 7, 1⟩] ⟨1, 2, 7, 4⟩).2.2
     (by decide) (by decide) (by decide)⟩

/-- C9: when the row is out of range the loop raises at its first iteration,
so whatever the seat value (out of range or not), the error names only the
`row` field — the seat check is never reached. -/
theorem row_out_of_range_masks_seat (row seat : Int) (d : PlanetariumDome)
    (hr : ¬ (1 ≤ row ∧ row ≤ (d.rows : Int)))
    (_hs : ¬ (1 ≤ seat ∧ seat ≤ (d.seats_in_row : Int))) :
    Ticket.validate_ticket row seat d =
      Except.error ⟨"row",
        "row number must be in range: (1, rows) → (1, " ++
          toString d.rows ++ ")"⟩ := by
  rw [validate_ticket_eq]
  rw [if_pos hr]

/-- C9 witness: row 0 and seat 0 are both out of range for a 2 × 3 dome, and
the raised error names only `row`. -/
theorem row_out_of_range_masks_seat_witness :
    Ticket.validate_ticket 0 0 ⟨"d", 2, 3⟩ =
      Except.error ⟨"row", "row number must be in range: (1, rows) → (1, 2)"⟩ :=
  row_out_of_range_masks_seat 0 0 ⟨"d", 2, 3⟩ (by decide) (by decide)

/-- Helper: appending a ticket that clashes with no member of a
triple-unique table keeps the table triple-unique. -/
theorem uniqueTriples_append_single {l : List Ticket} {t : Ticket}
    (hl : uniqueTriples l = true)
    (ht : l.all (fun u => !sameSeatTriple u t) = true) :
    uniqueTriples (l ++ [t]) = true := by
  induction l with
  | nil => simp [uniqueTriples]
  | cons a as ih =>
    rw [uniqueTriples, Bool.and_eq_true] at hl
    rw [List.all_cons, Bool.and_eq_true] at ht
    show ((as ++ [t]).all (fun u => !sameSeatTriple a u) &&
        uniqueTriples (as ++ [t])) = true
    rw [Bool.and_eq_true, List.all_append]
    refine ⟨?_, ih hl.2 ht.2⟩
    rw [Bool.and_eq_true]
    refine ⟨hl.1, ?_⟩
    rw [List.all_cons, List.all_nil, Bool.and_true]
    exact ht.1

/-- C2: saving a ticket whose `(show_session, row, seat)` triple is already
taken in the same session fails with the uniqueness error and, if the
persisted table satisfies the `unique_together` invariant, any successful
save preserves it. -/
theorem ticket_seat_uniqueness (dome : PlanetariumDome)
    (existing : List Ticket) (t : Ticket) :
    (existing.any (fun u => sameSeatTriple u t) = true →
      ∃ errs, Ticket.save dome existing t = Except.error errs ∧
        uniqueTogetherError ∈ errs) ∧
    (uniqueTriples existing = true →
      ∀ saved, Ticket.save dome existing t = Except.ok saved →
        uniqueTriples saved = true) := by
  constructor
  · intro hdup
    have hmem : uniqueTogetherError ∈ Ticket.full_clean dome existing t := by
      unfold Ticket.full_clean Ticket.validate_unique
      rw [if_pos hdup]
      exact List.mem_append_right _ (List.mem_singleton.mpr rfl)
    unfold Ticket.save
    cases hfc : Ticket.full_clean dome existing t with
    | nil => rw [hfc] at hmem; exact absurd hmem (List.not_mem_nil _)
    | cons e rest => exact ⟨e :: rest, rfl, hfc ▸ hmem⟩
  · intro hu saved hsave
    unfold Ticket.save at hsave
    cases hfc : Ticket.full_clean dome existing t with
    | nil =>
      rw [hfc] at hsave
      have hsaved : saved = existing ++ [t] := by
        cases hsave
        rfl
      have hnodup : existing.any (fun u => sameSeatTriple u t) = false := by
        by_contra hny
        rw [Bool.not_eq_false] at hny
        unfold Ticket.full_clean Ticket.validate_unique at hfc
        rw [if_pos hny] at hfc
        simp at hfc
      have hall : existing.all (fun u => !sameSeatTriple u t) = true := by
        rw [List.all_eq_true]
        rw [List.any_eq_false] at hnodup
        intro u hu2
        rw [Bool.not_eq_true']
        exact Bool.eq_false_iff.mpr (hnodup u hu2)
      rw [hsaved]
      exact uniqueTriples_append_single hu hall
    | cons e rest =>
      rw [hfc] at hsave
      exact Except.noConfusion hsave

/-- C2 witness: with ticket (row 1, seat 1, session 7) persisted, saving a
second ticket for the same triple fails carrying the uniqueness error, and
saving a different seat keeps the table triple-unique. -/
theorem ticket_seat_uniqueness_witness :
    (∃ errs, Ticket.save ⟨"d", 2, 2⟩ [⟨1, 1, 7, 1⟩] ⟨1, 1, 7, 4⟩ =
        Except.error errs ∧ uniqueTogetherError ∈ errs) ∧
    (∀ saved, Ticket.save ⟨"d", 2, 2⟩ [⟨1, 1, 7, 1⟩] ⟨2, 1, 7, 4⟩ =
        Except.ok saved → uniqueTriples saved = true) :=
  ⟨(ticket_seat_uniqueness ⟨"d", 2, 2⟩ [⟨1, 1, 7, 1⟩] ⟨1, 1, 7, 4⟩).1
      (by decide),
   (ticket_seat_uniqueness ⟨"d", 2, 2⟩ [⟨1, 1, 7, 1⟩] ⟨2, 1, 7, 4⟩).2
      (by decide)⟩

/-- C5: `save` is gated by `full_clean`: when validation raises, the raised
errors propagate and the ticket table is left exactly as it was (no insert);
when validation passes, the persist proceeds and the new table is the old one
with exactly the candidate appended. -/
theorem save_validates_then_persists (dome : PlanetariumDome)
    (existing : List Ticket) (t : Ticket) :
    (Ticket.full_clean dome existing t ≠ [] →
      Ticket.save dome existing t =
        Except.error (Ticket.full_clean dome existing t)) ∧
    (Ticket.full_clean dome existing t = [] →
      Ticket.save dome existing t = Except.ok (existing ++ [t])) := by
  constructor
  · intro hne
    unfold Ticket.save
    cases hfc : Ticket.full_clean dome existing t with
    | nil => exact absurd hfc hne
    | cons e rest => rfl
  · intro hok
    unfold Ticket.save
    rw [hok]

/-- C5 witness: an out-of-range candidate makes `save` fail with exactly the
validation errors (nothing inserted), and an in-range candidate on a fresh
table is inserted as the sole row. -/
theorem save_validates_then_persists_witness :
    Ticket.save ⟨"d", 2, 3⟩ [] ⟨0, 1, 7, 1⟩ =
      Except.error (Ticket.full_clean ⟨"d", 2, 3⟩ [] ⟨0, 1, 7, 1⟩) ∧
    Ticket.save ⟨"d", 2, 3⟩ [] ⟨1, 1, 7, 1⟩ = Except.ok [⟨1, 1, 7, 1⟩] :=
  ⟨(save_validates_then_persists ⟨"d", 2, 3⟩ [] ⟨0, 1, 7, 1⟩).1 (by decide),
   (save_validates_then_persists ⟨"d", 2, 3⟩ [] ⟨1, 1, 7, 1⟩).2 (by decide)⟩

/-- C6: after deleting a reservation no ticket referencing it remains; after
deleting a show none of its sessions remain, and no ticket of any session of
that show remains. -/
theorem cascade_deletes (db : DB) (rid showId : Nat) :
    (deleteReservation db rid).tickets.all (fun t => t.reservation != rid) = true ∧
    (deleteAstronomyShow db showId).sessions.all
      (fun s => s.astronomy_show != showId) = true ∧
    (deleteAstronomyShow db showId).tickets.all
      (fun t => !sessionOfShow db showId t.show_session) = true := by
  refine ⟨?_, ?_, ?_⟩ <;>
    · rw [List.all_eq_true]
      intro t ht
      exact (List.mem_filter.mp ht).2

/-- C7 counterexample: the claim says a dome with `rows = 0` cannot exist,
but a candidate dome with `rows = 0` (here `seats_in_row = 5`) passes the
`PositiveIntegerField` validation of both columns, so it can be persisted. -/
theorem dome_zero_rows_validates :
    domeFieldsValid ⟨0, 5⟩ = true := by decide

/-- C7 (amended): the `PositiveIntegerField` columns constrain `rows` and
`seats_in_row` to `0 ≤ v ≤ 2147483647` — non-negative, with zero allowed —
so negative values cannot exist but a dome with `rows = 0` or
`seats_in_row = 0` can. -/
theorem dome_fields_nonneg (d : DomeCandidate) :
    domeFieldsValid d = true ↔
      (0 ≤ d.rows ∧ d.rows ≤ 2147483647 ∧
        0 ≤ d.seats_in_row ∧ d.seats_in_row ≤ 2147483647) := by
  unfold domeFieldsValid positiveIntegerFieldOk
  simp only [Bool.and_eq_true, decide_eq_true_eq]
  tauto

/-- C10: the pairs accepted by `Ticket.validate_ticket` are exactly the
dome's seat grid, and that grid has exactly `capacity = rows * seats_in_row`
elements; with `rows = 0` or `seats_in_row = 0` the grid is empty. -/
theorem accepted_pairs_card (d : PlanetariumDome) :
    (∀ row seat : Int,
      Ticket.validate_ticket row seat d = Except.ok () ↔
        (row, seat) ∈ acceptedSeatPairs d) ∧
    (acceptedSeatPairs d).card = d.capacity := by
  constructor
  · intro row seat
    rw [validate_ticket_ok_char]
    unfold acceptedSeatPairs
    rw [Finset.mem_product, Finset.mem_Icc, Finset.mem_Icc]
    tauto
  · unfold acceptedSeatPairs PlanetariumDome.capacity
    rw [Finset.card_product, Int.card_Icc, Int.card_Icc]
    simp

theorem sanity_splitext_png : os_path_splitext "photo.png" = ("photo", ".png") := by decide

theorem sanity_splitext_none : os_path_splitext "photo" = ("photo", "") := by decide

theorem sanity_splitext_dots : os_path_splitext "..png" = ("..png", "") := by decide

theorem sanity_slugify : slugify "My  Great Show!" = "my-great-show" := by decide

theorem sanity_path :
    show_image_file_path "My Show" "u1" "pic.jpg" = "uploads/movies/my-show-u1.jpg" := by decide

/-- Helper: every character produced by the run-collapsing pass is a dash or
comes from the input. -/
theorem mem_collapseDashSpace {c : Char} :
    ∀ (l : List Char) (b : Bool), c ∈ collapseDashSpace l b → c = '-' ∨ c ∈ l := by
  intro l
  induction l with
  | nil => intro b h; simp [collapseDashSpace] at h
  | cons a as ih =>
    intro b h
    simp only [collapseDashSpace] at h
    split_ifs at h with ha hb
    · rcases ih true h with hc | hc
      · exact Or.inl hc
      · exact Or.inr (List.mem_cons_of_mem a hc)
    · rcases List.mem_cons.mp h with hc | hc
      · exact Or.inl hc
      · rcases ih true hc with hd | hd
        · exact Or.inl hd
        · exact Or.inr (List.mem_cons_of_mem a hd)
    · rcases List.mem_cons.mp h with hc | hc
      · exact Or.inr (hc ▸ List.mem_cons_self a as)
      · rcases ih false hc with hd | hd
        · exact Or.inl hd
        · exact Or.inr (List.mem_cons_of_mem a hd)

/-- Helper: `dropWhile` only removes elements. -/
theorem mem_of_mem_dropWhile {p : Char → Bool} {c : Char} :
    ∀ l : List Char, c ∈ l.dropWhile p → c ∈ l := by
  intro l
  induction l with
  | nil => intro h; exact absurd h (by simp)
  | cons a as ih =>
    intro h
    rw [List.dropWhile_cons] at h
    split_ifs at h with hp
    · exact List.mem_cons_of_mem a (ih h)
    · exact h

/-- Helper: every character of a slug is in the kept class `[\w\s-]` or is a
dash; in particular a slug never contains `/`. -/
theorem slugify_char_keep {t : String} {c : Char}
    (h : c ∈ (slugify t).data) : slugKeep c = true ∨ c = '-' := by
  unfold slugify slugifyChars at h
  rw [List.mem_reverse] at h
  have h2 := mem_of_mem_dropWhile _ h
  rw [List.mem_reverse] at h2
  have h3 := mem_of_mem_dropWhile _ h2
  rcases mem_collapseDashSpace _ _ h3 with hc | hc
  · exact Or.inr hc
  · exact Or.inl (List.mem_filter.mp hc).2

/-- Helper: the generated upload file name (slug, dash, uuid, extension)
never starts with the path separator, so `os.path.join` concatenates. -/
theorem newFilename_not_absolute (t uid ext : String) :
    ¬ (slugify t ++ "-" ++ uid ++ ext).data.head? = some '/' := by
  have hdata : (slugify t ++ "-" ++ uid ++ ext).data =
      (slugify t).data ++ ('-' :: (uid.data ++ ext.data)) := by
    simp [String.data_append]
  rw [hdata]
  cases hs : (slugify t).data with
  | nil =>
    intro hcontra
    simp at hcontra
  | cons c cs =>
    intro hcontra
    simp only [List.cons_append, List.head?_cons, Option.some.injEq] at hcontra
    have hmem : c ∈ (slugify t).data := by
      rw [hs]; exact List.mem_cons_self c cs
    rcases slugify_char_keep hmem with hk | hk
    · rw [hcontra] at hk
      exact absurd hk (by decide)
    · rw [hcontra] at hk
      exact absurd hk (by decide)

/-- C8: for every title, generated uuid and uploaded file name, the stored
path is the fixed upload directory `uploads/movies/` followed by the
slugified title, a dash, the generated identifier, and the original
extension of the uploaded file name. -/
theorem show_image_file_path_spec (title uid filename : String) :
    show_image_file_path title uid filename =
      "uploads/movies/" ++ slugify title ++ "-" ++ uid ++
        (os_path_splitext filename).2 := by
  unfold show_image_file_path os_path_join
  rw [if_neg (newFilename_not_absolute title uid _)]
  rw [if_pos (by decide : ("uploads/movies/" : String).data = [] ∨
    ("uploads/movies/" : String).data.getLast? = some '/')]
  apply String.ext
  simp [String.data_append, List.append_assoc]
